import Mathlib

/-!
Shallow embedding of the receipt reconciliation and validation engine of the
`workers-receipt-parser` repository:

* `ReceiptCalculator.calculateDiscrepancy` (src/src/utils/ReceiptCalculator.ts)
* `ReceiptValidator.validate` and its sixteen rule checks (the validator source
  file, shipped in the repository alongside ValidationTypes.ts)

Modelling conventions:

* JavaScript numbers are modelled as rationals (`ℚ`); monetary rounding
  (`toFixed(2)` followed by `Number(...)`/`parseFloat`) is modelled as decimal
  rounding half away from zero, the semantics the code relies on for money.
* Optional / possibly-missing fields are `Option _`.  JavaScript truthiness on
  numbers (`!x` true for `undefined` and `0`) is `truthyQ`, on strings
  (`undefined` and `""` falsy) `truthyS`, on booleans `truthyB`.
* `typeof x === "number"` is `Option.isSome` (the model has no `NaN`).
* The host clock and `Date.parse` are parameters (`JsDateEnv`): `parse`
  returns `none` exactly when `new Date(s)` yields an Invalid Date.  The
  JavaScript `Date` constructor never throws on a string argument, and every
  comparison against an Invalid Date (`NaN` time value) is false, so the
  `catch` branch of `validateTimestamp` (which would push `TIMESTAMP_INVALID`)
  is unreachable; the embedding therefore emits nothing on a parse failure.
* The regex scan `message.match(/(\d+\.\d+)/g)` is modelled by the
  left-to-right scanner `scanAux` below.
-/

namespace ReceiptParser

/-- Decimal digit character, `digCh d` for `d % 10`-style arguments. -/
def digCh : Nat → Char
  | 0 => '0'
  | 1 => '1'
  | 2 => '2'
  | 3 => '3'
  | 4 => '4'
  | 5 => '5'
  | 6 => '6'
  | 7 => '7'
  | 8 => '8'
  | _ => '9'

/-- The regex character class `\d` (ASCII `0`-`9`). -/
def isDig (c : Char) : Bool :=
  48 ≤ c.toNat && c.toNat ≤ 57

/-- Decimal digit characters of a natural number, most significant first;
`fuel` bounds the recursion depth. -/
def natCharsAux : Nat → Nat → List Char
  | 0, _ => []
  | fuel + 1, n =>
    if n < 10 then [digCh n]
    else natCharsAux fuel (n / 10) ++ [digCh (n % 10)]

/-- Decimal digit characters of a natural number (JS integer stringification). -/
def natChars (n : Nat) : List Char :=
  natCharsAux (n + 1) n

/-- JS stringification of a nonnegative integer-valued number. -/
def natStr (n : Nat) : String :=
  String.mk (natChars n)

/-- JS stringification of an integer-valued number, as in template literals. -/
def intStr (i : Int) : String :=
  String.mk ((if i < 0 then ['-'] else []) ++ natChars i.natAbs)

/-- Rounding half away from zero to an integer, the decimal-string rounding
used by `toFixed` on monetary values. -/
def roundHalfAway (q : ℚ) : Int :=
  if q < 0 then -⌊-q + 1 / 2⌋ else ⌊q + 1 / 2⌋

/-- `Number(x.toFixed(2))`: round to two decimal places. -/
def round2 (q : ℚ) : ℚ :=
  (roundHalfAway (q * 100) : ℚ) / 100

/-- The two fractional digit characters of `x.toFixed(2)`, for `m` the
absolute scaled value modulo 100. -/
def pad2Chars (m : Nat) : List Char :=
  [digCh (m / 10), digCh (m % 10)]

/-- Character list of `q.toFixed(2)`. -/
def toFixed2Chars (q : ℚ) : List Char :=
  let n := roundHalfAway (q * 100)
  (if n < 0 then ['-'] else []) ++ natChars (n.natAbs / 100) ++ '.' :: pad2Chars (n.natAbs % 100)

/-- `q.toFixed(2)` (decimal string with exactly two fractional digits). -/
def toFixed2 (q : ℚ) : String :=
  String.mk (toFixed2Chars q)

/-- `q.toFixed(1)` (decimal string with exactly one fractional digit). -/
def toFixed1 (q : ℚ) : String :=
  let n := roundHalfAway (q * 10)
  String.mk ((if n < 0 then ['-'] else []) ++ natChars (n.natAbs / 10) ++ '.' :: [digCh (n.natAbs % 10)])

/-- Whitespace recognised by `String.prototype.trim` (ASCII part). -/
def isWS (c : Char) : Bool :=
  c = ' ' || c = '\t' || c = '\n' || c = '\r'

/-- JS `s.trim()`. -/
def jsTrim (s : String) : String :=
  String.mk (((s.data.dropWhile isWS).reverse.dropWhile isWS).reverse)

/-- JS `Array.prototype.join(", ")`. -/
def joinComma : List String → String
  | [] => ""
  | s :: rest => rest.foldl (fun acc t => acc ++ ", " ++ t) s

/-- JS truthiness of an optional number: `undefined` and `0` are falsy. -/
def truthyQ : Option ℚ → Bool
  | none => false
  | some q => q != 0

/-- JS truthiness of an optional string: `undefined` and `""` are falsy. -/
def truthyS : Option String → Bool
  | none => false
  | some s => !s.isEmpty

/-- JS truthiness of an optional boolean. -/
def truthyB : Option Bool → Bool
  | none => false
  | some b => b

/-- JS `x < 0` where `x` may be `undefined` (`undefined < 0` is false). -/
def isNegQ : Option ℚ → Bool
  | none => false
  | some q => q < 0

/-- JS `Math.round` (round half toward positive infinity). -/
def mathRound (q : ℚ) : Int :=
  ⌊q + 1 / 2⌋

/-! ## Receipt data model (schema/receipt.zod.ts, with the defensive
optionality the calculator and validator actually guard for) -/

/-- Receipt header. -/
structure Header where
  receipt_number : Option String
  timestamp : Option String
  store_name : Option String
  store_address : Option String
  deriving DecidableEq

/-- Line item. -/
structure Item where
  description : Option String
  quantity : Option ℚ
  unit_price : Option ℚ
  total_price : Option ℚ
  tax : Option ℚ
  deriving DecidableEq

/-- Payment method entry. -/
structure PaymentMethod where
  method : Option String
  amount : Option ℚ
  card_four_digit : Option String
  deriving DecidableEq

/-- Payment block. -/
structure Payment where
  total_amount : Option ℚ
  currency : Option String
  payment_methods : Option (List PaymentMethod)
  taxes : Option ℚ
  discounts : Option ℚ
  deriving DecidableEq

/-- A named extra charge in the summary. -/
structure OtherCharge where
  description : Option String
  amount : Option ℚ
  deriving DecidableEq

/-- Receipt summary. -/
structure Summary where
  title : Option String
  description : Option String
  subtotal : Option ℚ
  taxes : Option ℚ
  total : Option ℚ
  discounts : Option ℚ
  service_charge : Option ℚ
  other_charges : Option (List OtherCharge)
  discrepancy : Option ℚ
  service_charge_included : Option Bool
  deriving DecidableEq

/-- The receipt record. -/
structure Receipt where
  is_receipt : Option Bool
  header : Option Header
  category : Option String
  items : Option (List Item)
  payment : Option Payment
  summary : Option Summary
  notes : Option String
  deriving DecidableEq

/-- Sum of `summary.other_charges[].amount` with missing amounts as 0 and a
missing list as 0 (`other_charges?.reduce(...) || 0`). -/
def otherChargesSum (s : Summary) : ℚ :=
  match s.other_charges with
  | none => 0
  | some cs => (cs.map fun c => c.amount.getD 0).sum

/-- Sum of item `total_price` with non-numeric values as 0. -/
def itemsTotalSum (items : List Item) : ℚ :=
  (items.map fun it => it.total_price.getD 0).sum

/-! ## ReceiptCalculator.calculateDiscrepancy (ReceiptCalculator.ts) -/

/-- `ReceiptCalculator.calculateDiscrepancy`: recompute the expected total
with and without service charge, keep the hypothesis with the smaller
absolute rounded discrepancy, and return a copy of the receipt whose summary
carries `discrepancy` and `service_charge_included`. -/
def calculateDiscrepancy (r : Receipt) : Receipt :=
  match r.items, r.summary with
  | some items, some s =>
    match s.total with
    | some total =>
      let calculatedTotal := itemsTotalSum items
      let taxAmount := s.taxes.getD 0
      let discountAmount := s.discounts.getD 0
      let serviceChargeAmount := s.service_charge.getD 0
      let otherChargesAmount := otherChargesSum s
      let expectedTotalWithServiceCharge :=
        calculatedTotal + taxAmount + serviceChargeAmount + otherChargesAmount - discountAmount
      let expectedTotalWithoutServiceCharge :=
        calculatedTotal + taxAmount + otherChargesAmount - discountAmount
      let discrepancyWithServiceCharge := round2 (total - expectedTotalWithServiceCharge)
      let discrepancyWithoutServiceCharge := round2 (total - expectedTotalWithoutServiceCharge)
      let isServiceChargeIncluded : Bool :=
        |discrepancyWithServiceCharge| < |discrepancyWithoutServiceCharge|
      let discrepancy :=
        if isServiceChargeIncluded then discrepancyWithServiceCharge
        else discrepancyWithoutServiceCharge
      { r with
        summary := some { s with
          discrepancy := some discrepancy
          service_charge_included := some isServiceChargeIncluded } }
    | none => r
  | _, _ => r

/-- The frame of `calculateDiscrepancy`: a copy of `r` whose summary (when
present) has `discrepancy` and `service_charge_included` replaced. -/
def updateDiscFields (r : Receipt) (od : Option ℚ) (of' : Option Bool) : Receipt :=
  { r with
    summary := r.summary.map fun s =>
      { s with discrepancy := od, service_charge_included := of' } }

/-! ## Validation issue catalog (ValidationTypes.ts) -/

/-- Closed catalog of issue types (`ValidationIssueTypes`). -/
inductive IssueType where
  | TIMESTAMP_FUTURE
  | TIMESTAMP_TOO_OLD
  | TIMESTAMP_INVALID
  | UNUSUAL_TAX_RATE
  | ITEMS_SUBTOTAL_MISMATCH
  | TOTAL_CALCULATION_ERROR
  | INVALID_CURRENCY_CODE
  | SUSPICIOUS_RECEIPT_NUMBER
  | ITEM_PRICE_CALCULATION
  | PAYMENT_METHODS_MISMATCH
  | EMPTY_STORE_NAME
  | EMPTY_STORE_ADDRESS
  | DUPLICATE_ITEMS
  | TIMESTAMP_FORMAT
  | SUMMARY_CALCULATION_ERROR
  | NEGATIVE_AMOUNT
  | SUSPICIOUS_CATEGORY
  | CARD_NUMBER_FORMAT
  | DISCREPANCY_EXPLANATION
  | SERVICE_CHARGE_CALCULATION
  | TOTAL_TOO_SMALL
  deriving DecidableEq

/-- Issue severities (`ValidationSeverity`). -/
inductive Severity where
  | error
  | warning
  | info
  | fatal
  deriving DecidableEq

/-- A validation issue. -/
structure Issue where
  type : IssueType
  message : String
  severity : Severity
  deriving DecidableEq

/-- The validator's result record. -/
structure ValidationResult where
  valid : Bool
  issues : List Issue
  confidence_score : ℚ
  deriving DecidableEq

/-! ## Number extraction from issue messages
(`message.match(/(\d+\.\d+)/g)` and `parseFloat`) -/

/-- Left-to-right scanner for the global regex `/(\d+\.\d+)/g`.  The state is
`none` outside a candidate match, `some (d1, none)` inside the integer-part
digit run `d1`, and `some (d1, some fr)` after the dot with fractional run
`fr`; a candidate is emitted when its fractional run is nonempty and the run
ends.  Failed candidates resume scanning at the failing character, which
(being a non-digit) the outside state skips, matching the regex engine's
restart behaviour. -/
def scanAux : Option (List Char × Option (List Char)) → List Char → List (List Char)
  | st, [] =>
    match st with
    | some (d1, some (f :: fs)) => [d1 ++ '.' :: f :: fs]
    | _ => []
  | st, c :: cs =>
    match st with
    | none =>
      if isDig c then scanAux (some ([c], none)) cs else scanAux none cs
    | some (d1, none) =>
      if isDig c then scanAux (some (d1 ++ [c], none)) cs
      else if c = '.' then scanAux (some (d1, some [])) cs
      else scanAux none cs
    | some (d1, some fr) =>
      if isDig c then scanAux (some (d1, some (fr ++ [c]))) cs
      else
        match fr with
        | [] => scanAux none cs
        | f :: fs => (d1 ++ '.' :: f :: fs) :: scanAux none cs

/-- All matches of `/(\d+\.\d+)/g` in a string, in order. -/
def scanNums (s : String) : List (List Char) :=
  scanAux none s.data

/-- Numeric value of a digit run. -/
def digitsVal (l : List Char) : Nat :=
  l.foldl (fun acc c => acc * 10 + (c.toNat - 48)) 0

/-- `parseFloat` on a token of shape `\d+\.\d+`. -/
def parseTok (l : List Char) : ℚ :=
  let d1 := l.takeWhile isDig
  match l.dropWhile isDig with
  | '.' :: rest =>
    let d2 := rest.takeWhile isDig
    (digitsVal d1 : ℚ) + (digitsVal d2 : ℚ) / (10 : ℚ) ^ d2.length
  | _ => (digitsVal d1 : ℚ)

/-- `ReceiptValidator.extractDiscrepancyPercentage`: take the first two
decimal numbers of the message; with base the larger of the two, return
`|a − b| / base * 100`, or `none` when fewer than two numbers occur or the
base is zero. -/
def extractDiscrepancyPercentage (message : String) : Option ℚ :=
  match (scanNums message).map parseTok with
  | value1 :: value2 :: _ =>
    let base := max value1 value2
    let diff := |value1 - value2|
    if base = 0 then none else some (diff / base * 100)
  | _ => none

/-- `ReceiptValidator.isNumericalDiscrepancyIssue`. -/
def isNumericalDiscrepancyIssue (t : IssueType) : Bool :=
  t = .ITEMS_SUBTOTAL_MISMATCH || t = .SUMMARY_CALCULATION_ERROR ||
  t = .ITEM_PRICE_CALCULATION || t = .PAYMENT_METHODS_MISMATCH ||
  t = .DISCREPANCY_EXPLANATION

/-! ## The sixteen rule checks (ReceiptValidator) -/

/-- Host-environment parameters of the validator: `parse s` is the time value
of `new Date(s)` (`none` for an Invalid Date), `now` the current time value,
`tenYearsAgo` the time value of the current date shifted back ten years. -/
structure JsDateEnv where
  parse : String → Option Int
  now : Int
  tenYearsAgo : Int

/-- `validateTimestamp` (timestamp sanity).  The source wraps the `Date`
comparisons in `try/catch` and pushes `TIMESTAMP_INVALID` in the `catch`, but
`new Date(string)` never throws: an unparsable string yields an Invalid Date,
whose comparisons are all false, so that branch is unreachable and a parse
failure emits nothing. -/
def validateTimestamp (env : JsDateEnv) (r : Receipt) : List Issue :=
  match r.header with
  | none => []
  | some h =>
    match h.timestamp with
    | none => []
    | some ts =>
      if ts.isEmpty then []
      else
        match env.parse ts with
        | none => []
        | some t =>
          (if env.now < t then
            [⟨.TIMESTAMP_FUTURE, "Receipt timestamp is in the future", .warning⟩]
          else []) ++
          (if t < env.tenYearsAgo then
            [⟨.TIMESTAMP_TOO_OLD, "Receipt timestamp is unusually old (>10 years)", .warning⟩]
          else [])

/-- `validateTaxCalculations` (tax-rate plausibility). -/
def validateTaxCalculations (r : Receipt) : List Issue :=
  match r.summary with
  | none => []
  | some s =>
    if !truthyQ s.taxes || !truthyQ s.subtotal then []
    else
      let calculatedTaxRate := s.taxes.getD 0 / s.subtotal.getD 0 * 100
      let roundedTaxRate := mathRound calculatedTaxRate
      let commonTaxRates : List Int := [0, 5, 7, 10, 11, 12, 15, 18, 20, 21, 22, 25]
      let isCommonRate := commonTaxRates.any fun rate => |roundedTaxRate - rate| ≤ 1
      if !isCommonRate && calculatedTaxRate > 0 then
        [⟨.UNUSUAL_TAX_RATE,
          "Unusual tax rate detected: " ++ intStr roundedTaxRate ++ "%", .info⟩]
      else []

/-- `validateTotals` (items-vs-subtotal). -/
def validateTotals (r : Receipt) : List Issue :=
  match r.summary with
  | none => []
  | some s =>
    if !truthyQ s.total then []
    else
      match r.items with
      | none => []
      | some items =>
        let itemsTotal := itemsTotalSum items
        if truthyQ s.subtotal && |itemsTotal - s.subtotal.getD 0| > 1 then
          [⟨.ITEMS_SUBTOTAL_MISMATCH,
            "Sum of item prices (" ++ toFixed2 itemsTotal ++
              ") doesn't match subtotal (" ++ toFixed2 (s.subtotal.getD 0) ++ ")",
            .warning⟩]
        else []

/-- `validateCurrencyConsistency` (`/^[A-Z]{3}$/`). -/
def validateCurrencyConsistency (r : Receipt) : List Issue :=
  match r.payment with
  | none => []
  | some p =>
    match p.currency with
    | none => []
    | some c =>
      if c.isEmpty then []
      else if !(c.data.length = 3 && c.data.all fun ch => 65 ≤ ch.toNat && ch.toNat ≤ 90) then
        [⟨.INVALID_CURRENCY_CODE, "Invalid currency code format: " ++ c, .warning⟩]
      else []

/-- Character class of `/^[A-Za-z0-9\-\/\.]+$/`. -/
def isReceiptNumChar (c : Char) : Bool :=
  isDig c || (65 ≤ c.toNat && c.toNat ≤ 90) || (97 ≤ c.toNat && c.toNat ≤ 122) ||
  c = '-' || c = '/' || c = '.'

/-- `validateReceiptNumberFormat`. -/
def validateReceiptNumberFormat (r : Receipt) : List Issue :=
  match r.header with
  | none => []
  | some h =>
    match h.receipt_number with
    | none => []
    | some rn =>
      if rn.isEmpty then []
      else if !(rn.data.all isReceiptNumChar) then
        [⟨.SUSPICIOUS_RECEIPT_NUMBER, "Receipt number contains unusual characters", .info⟩]
      else []

/-- Interpolation of a possibly-undefined string. -/
def strOrUndefined : Option String → String
  | none => "undefined"
  | some s => s

/-- `validateItemsQuantityPrice` (per-item price check). -/
def validateItemsQuantityPrice (r : Receipt) : List Issue :=
  match r.items with
  | none => []
  | some items =>
    if items.isEmpty then []
    else
      items.enum.flatMap fun p =>
        let idx := p.1
        let item := p.2
        if truthyQ item.quantity && truthyQ item.unit_price && truthyQ item.total_price then
          let calculatedTotal := item.quantity.getD 0 * item.unit_price.getD 0
          if |calculatedTotal - item.total_price.getD 0| > 1 / 100 then
            [⟨.ITEM_PRICE_CALCULATION,
              "Item " ++ natStr (idx + 1) ++ " (" ++ strOrUndefined item.description ++
                "): quantity × unit price (" ++ toFixed2 calculatedTotal ++
                ") doesn't match total price (" ++ toFixed2 (item.total_price.getD 0) ++ ")",
              .warning⟩]
          else []
        else []

/-- `validatePaymentMethodsTotal`. -/
def validatePaymentMethodsTotal (r : Receipt) : List Issue :=
  match r.payment with
  | none => []
  | some p =>
    match p.payment_methods with
    | none => []
    | some methods =>
      if !truthyQ p.total_amount then []
      else
        let paymentMethodsTotal := (methods.map fun m => m.amount.getD 0).sum
        if |paymentMethodsTotal - p.total_amount.getD 0| > 1 / 100 then
          [⟨.PAYMENT_METHODS_MISMATCH,
            "Sum of payment methods (" ++ toFixed2 paymentMethodsTotal ++
              ") doesn't match total amount (" ++ toFixed2 (p.total_amount.getD 0) ++ ")",
            .warning⟩]
        else []

/-- `validateStoreInfo`. -/
def validateStoreInfo (r : Receipt) : List Issue :=
  match r.header with
  | none => []
  | some h =>
    (if !truthyS h.store_name || (jsTrim (strOrUndefined h.store_name)).isEmpty then
      [⟨.EMPTY_STORE_NAME, "Store name is empty or missing", .warning⟩]
    else []) ++
    (if !truthyS h.store_address || (jsTrim (strOrUndefined h.store_address)).isEmpty then
      [⟨.EMPTY_STORE_ADDRESS, "Store address is empty or missing", .info⟩]
    else [])

/-- Grouping key of `validateDuplicateItems`: the string signature
`lowercased-trimmed-description ++ "_" ++ String(unit_price)` is faithfully
represented by the pair (the numeric stringification contains no underscore,
so the encoding is injective). -/
abbrev DupSig := String × Option ℚ

/-- Append index `i` to the signature's bucket, keeping first-insertion
order (JS `Map` iteration order). -/
def insertSig : List (DupSig × List Nat) → DupSig → Nat → List (DupSig × List Nat)
  | [], sig, i => [(sig, [i])]
  | (s, l) :: rest, sig, i =>
    if s = sig then (s, l ++ [i]) :: rest else (s, l) :: insertSig rest sig i

/-- Build the signature buckets of `validateDuplicateItems` in insertion
order, skipping items with a falsy description. -/
def buildSigs : List (Nat × Item) → List (DupSig × List Nat) → List (DupSig × List Nat)
  | [], acc => acc
  | (i, it) :: rest, acc =>
    match it.description with
    | none => buildSigs rest acc
    | some d =>
      if d.isEmpty then buildSigs rest acc
      else buildSigs rest (insertSig acc ((jsTrim d).toLower, it.unit_price) i)

/-- `validateDuplicateItems`. -/
def validateDuplicateItems (r : Receipt) : List Issue :=
  match r.items with
  | none => []
  | some items =>
    if items.length ≤ 1 then []
    else
      (buildSigs items.enum []).flatMap fun b =>
        if b.2.length > 1 then
          [⟨.DUPLICATE_ITEMS,
            "Potential duplicate items found (items " ++
              joinComma (b.2.map fun i => natStr (i + 1)) ++ ")",
            .info⟩]
        else []

/-- Timezone suffix of the strict ISO pattern: `Z` or `[+-]\d{2}:\d{2}`. -/
def isoTz : List Char → Bool
  | ['Z'] => true
  | sgn :: a :: b :: ':' :: c :: d :: [] =>
    (sgn = '+' || sgn = '-') && isDig a && isDig b && isDig c && isDig d
  | _ => false

/-- Optional fraction then timezone: `(?:\.\d+)?(?:Z|[+-]\d{2}:\d{2})$`. -/
def isoTail : List Char → Bool
  | '.' :: rest =>
    !(rest.takeWhile isDig).isEmpty && isoTz (rest.dropWhile isDig)
  | l => isoTz l

/-- The strict pattern
`/^\d{4}-\d{2}-\d{2}T\d{2}:\d{2}:\d{2}(?:\.\d+)?(?:Z|[+-]\d{2}:\d{2})$/`. -/
def isoDatePattern (s : String) : Bool :=
  match s.data with
  | y1 :: y2 :: y3 :: y4 :: '-' :: m1 :: m2 :: '-' :: d1 :: d2 :: 'T' ::
      h1 :: h2 :: ':' :: n1 :: n2 :: ':' :: s1 :: s2 :: rest =>
    isDig y1 && isDig y2 && isDig y3 && isDig y4 && isDig m1 && isDig m2 &&
    isDig d1 && isDig d2 && isDig h1 && isDig h2 && isDig n1 && isDig n2 &&
    isDig s1 && isDig s2 && isoTail rest
  | _ => false

/-- `validateTimeFormat` (timestamp format). -/
def validateTimeFormat (r : Receipt) : List Issue :=
  match r.header with
  | none => []
  | some h =>
    match h.timestamp with
    | none => []
    | some ts =>
      if ts.isEmpty then []
      else if !isoDatePattern ts then
        [⟨.TIMESTAMP_FORMAT,
          "Timestamp format does not follow ISO 8601 / RFC3339 standard", .warning⟩]
      else []

/-- `validateSummaryCalculations` (summary arithmetic).  The guard is JS
truthiness: a zero subtotal, taxes, or total also skips the rule. -/
def validateSummaryCalculations (r : Receipt) : List Issue :=
  match r.summary with
  | none => []
  | some s =>
    if !truthyQ s.subtotal || !truthyQ s.taxes || !truthyQ s.total then []
    else
      let e1 := s.subtotal.getD 0 + s.taxes.getD 0
      let e2 := if truthyQ s.service_charge then e1 + s.service_charge.getD 0 else e1
      let expectedTotal := if truthyQ s.discounts then e2 - s.discounts.getD 0 else e2
      if |expectedTotal - s.total.getD 0| > 1 / 100 then
        [⟨.SUMMARY_CALCULATION_ERROR,
          "Calculated total (" ++ toFixed2 expectedTotal ++
            ") doesn't match stated total (" ++ toFixed2 (s.total.getD 0) ++ ")",
          .warning⟩]
      else []

/-- `validateNegativeAmounts`. -/
def validateNegativeAmounts (r : Receipt) : List Issue :=
  (match r.items with
  | none => []
  | some items =>
    items.enum.flatMap fun p =>
      if isNegQ p.2.quantity || isNegQ p.2.unit_price || isNegQ p.2.total_price then
        [⟨.NEGATIVE_AMOUNT,
          "Item " ++ natStr (p.1 + 1) ++ " (" ++ strOrUndefined p.2.description ++
            ") has negative values",
          .warning⟩]
      else []) ++
  (match r.summary with
  | none => []
  | some s =>
    (if isNegQ s.subtotal then
      [⟨.NEGATIVE_AMOUNT, "Subtotal is negative", .warning⟩]
    else []) ++
    (if isNegQ s.total then
      [⟨.NEGATIVE_AMOUNT, "Total amount is negative", .warning⟩]
    else []))

/-- `validateCardNumbers`. -/
def validateCardNumbers (r : Receipt) : List Issue :=
  match r.payment with
  | none => []
  | some p =>
    match p.payment_methods with
    | none => []
    | some methods =>
      methods.enum.flatMap fun q =>
        match q.2.method with
        | none => []
        | some meth =>
          if meth = "Credit Card" || meth = "Debit Card" then
            if !truthyS q.2.card_four_digit then
              [⟨.CARD_NUMBER_FORMAT,
                "Payment method " ++ natStr (q.1 + 1) ++ " (" ++ meth ++
                  ") is missing card number",
                .info⟩]
            else
              let cd := (q.2.card_four_digit.getD "").data
              if !(cd.length = 4 && cd.all isDig) then
                [⟨.CARD_NUMBER_FORMAT,
                  "Payment method " ++ natStr (q.1 + 1) ++
                    " has invalid card number format (should be 4 digits)",
                  .warning⟩]
              else []
          else []

/-- Message of the `DISCREPANCY_EXPLANATION` issue. -/
def discrepancyMessage (d : ℚ) : String :=
  "Significant discrepancy (" ++ toFixed2 d ++ ") detected in receipt totals"

/-- `validateDiscrepancy` (discrepancy magnitude; a zero discrepancy is
falsy and skips). -/
def validateDiscrepancy (r : Receipt) : List Issue :=
  match r.summary with
  | none => []
  | some s =>
    if !truthyQ s.discrepancy then []
    else if |s.discrepancy.getD 0| > 1 then
      [⟨.DISCREPANCY_EXPLANATION, discrepancyMessage (s.discrepancy.getD 0), .warning⟩]
    else []

/-- `validateServiceCharge`. -/
def validateServiceCharge (r : Receipt) : List Issue :=
  match r.summary with
  | none => []
  | some s =>
    if !truthyQ s.subtotal then []
    else
      let sb := s.subtotal.getD 0
      (if truthyQ s.service_charge then
        let sc := s.service_charge.getD 0
        let serviceChargePercent := sc / sb * 100
        (if serviceChargePercent > 25 then
          [⟨.SERVICE_CHARGE_CALCULATION,
            "Service charge (" ++ toFixed1 serviceChargePercent ++ "%) seems unusually high",
            .info⟩]
        else []) ++
        (if truthyQ s.taxes && |sc - s.taxes.getD 0| < 1 / 100 then
          [⟨.SERVICE_CHARGE_CALCULATION,
            "Service charge (" ++ toFixed2 sc ++
              ") is identical to tax amount, possibly a duplicate or parsing error",
            .info⟩]
        else [])
      else []) ++
      (if truthyQ s.taxes && truthyQ s.total then
        let shouldIncludeServiceCharge :=
          truthyQ s.service_charge && s.service_charge_included = some true
        let e1 := sb + s.taxes.getD 0
        let e2 := if shouldIncludeServiceCharge then e1 + s.service_charge.getD 0 else e1
        let expectedTotal := if truthyQ s.discounts then e2 - s.discounts.getD 0 else e2
        if |expectedTotal - s.total.getD 0| > 1 / 100 then
          if truthyQ s.service_charge &&
              |(|s.discrepancy.getD 0|) - s.service_charge.getD 0| < 1 / 100 then
            [⟨.SERVICE_CHARGE_CALCULATION,
              "Service charge (" ++ toFixed2 (s.service_charge.getD 0) ++
                ") appears to be " ++
                (if truthyB s.service_charge_included then "included in" else "excluded from") ++
                " the total amount",
              .info⟩]
          else
            [⟨.SUMMARY_CALCULATION_ERROR,
              "Total calculation " ++
                (if shouldIncludeServiceCharge then "with" else "without") ++
                " service charge: expected " ++ toFixed2 expectedTotal ++
                ", got " ++ toFixed2 (s.total.getD 0),
              .warning⟩]
        else []
      else [])

/-- `validateTotalAmount` (total-floor heuristic; a zero total is falsy and
skips). -/
def validateTotalAmount (r : Receipt) : List Issue :=
  match r.summary with
  | none => []
  | some s =>
    if !truthyQ s.total then []
    else if s.total.getD 0 < 1000 then
      [⟨.TOTAL_TOO_SMALL,
        "Total too less than 1000, might be because of thousand scaling", .fatal⟩]
    else []

/-! ## ReceiptValidator.validate -/

/-- The issue list of `validate`: the sixteen rule checks push onto one
array in this call order. -/
def validateIssues (env : JsDateEnv) (r : Receipt) : List Issue :=
  validateTimestamp env r ++ validateTaxCalculations r ++ validateTotals r ++
  validateCurrencyConsistency r ++ validateReceiptNumberFormat r ++
  validateItemsQuantityPrice r ++ validatePaymentMethodsTotal r ++
  validateStoreInfo r ++ validateDuplicateItems r ++ validateTimeFormat r ++
  validateSummaryCalculations r ++ validateNegativeAmounts r ++
  validateCardNumbers r ++ validateDiscrepancy r ++ validateServiceCharge r ++
  validateTotalAmount r

/-- Per-issue weight of the confidence computation: severity base weight,
scaled by `min(1, pct/10)` for numerical-discrepancy issue types whose
message yields a percentage. -/
def issueWeight (i : Issue) : ℚ :=
  let base : ℚ :=
    match i.severity with
    | .fatal => 6 / 10
    | .error => 3 / 10
    | .warning => 1 / 10
    | .info => 3 / 100
  if isNumericalDiscrepancyIssue i.type then
    match extractDiscrepancyPercentage i.message with
    | some discrepancyPercentage => base * min 1 (discrepancyPercentage / 10)
    | none => base
  else base

/-- `ReceiptValidator.validate`. -/
def validate (env : JsDateEnv) (r : Receipt) : ValidationResult :=
  let issues := validateIssues env r
  let confidenceReduction := (issues.map issueWeight).sum
  { valid := (issues.filter fun i => i.severity = .error).length = 0
    issues := issues
    confidence_score := round2 (max 0 (1 - confidenceReduction)) }

/-! ## Claim-side formulation of the confidence weights (for C5 the claim's
wording of the per-issue weight is stated independently and compared with the
code's `issueWeight`) -/

/-- Per-issue weight as the claim states it: base weight 0.6 / 0.3 / 0.1 /
0.03 by severity; for the numerical-discrepancy types, when the message text
contains at least two decimal numbers `a` and `b` (first two of the numeric
pattern scan) with `max a b ≠ 0`, the weight is multiplied by
`min 1 ((|a − b| / max a b * 100) / 10)`; otherwise the adjustment is
skipped. -/
def claimIssueWeight (i : Issue) : ℚ :=
  let base : ℚ :=
    match i.severity with
    | .fatal => 6 / 10
    | .error => 3 / 10
    | .warning => 1 / 10
    | .info => 3 / 100
  if isNumericalDiscrepancyIssue i.type then
    match (scanNums i.message).map parseTok with
    | a :: b :: _ =>
      if max a b = 0 then base
      else base * min 1 (|a - b| / max a b * 100 / 10)
    | _ => base
  else base

/-! ## Concrete fixtures for counterexamples and witnesses -/

/-- The all-absent receipt record. -/
def emptyReceipt : Receipt :=
  { is_receipt := none, header := none, category := none, items := none,
    payment := none, summary := none, notes := none }

/-- An all-absent summary. -/
def emptySummary : Summary :=
  { title := none, description := none, subtotal := none, taxes := none,
    total := none, discounts := none, service_charge := none,
    other_charges := none, discrepancy := none, service_charge_included := none }

/-- Clock environment where every timestamp string parses to time 0. -/
def envParseOk : JsDateEnv :=
  { parse := fun _ => some 0, now := 1, tenYearsAgo := -1 }

/-- Clock environment where no timestamp string parses (Invalid Date). -/
def envParseFail : JsDateEnv :=
  { parse := fun _ => none, now := 0, tenYearsAgo := 0 }

/-- Receipt with an unusual tax rate (3%) and a non-ISO timestamp, producing
exactly one `UNUSUAL_TAX_RATE` and one `TIMESTAMP_FORMAT` issue. -/
def orderReceipt : Receipt :=
  { emptyReceipt with
    header := some { receipt_number := none, timestamp := some "2023/10/05",
                     store_name := some "S", store_address := some "A" }
    summary := some { emptySummary with
      subtotal := some 1000, taxes := some 30, total := some 1030 } }

/-- Receipt whose timestamp string cannot be parsed as a date. -/
def badTimestampReceipt : Receipt :=
  { emptyReceipt with
    header := some { receipt_number := none, timestamp := some "not-a-date",
                     store_name := some "S", store_address := some "A" } }

/-- Summary with zero taxes but a large subtotal/total gap. -/
def zeroTaxSummary : Summary :=
  { emptySummary with subtotal := some 100, taxes := some 0, total := some 200 }

/-- Receipt carrying `zeroTaxSummary`. -/
def zeroTaxReceipt : Receipt :=
  { emptyReceipt with summary := some zeroTaxSummary }

/-- Summary whose only present monetary field is a zero total. -/
def zeroTotalSummary : Summary :=
  { emptySummary with total := some 0 }

/-- Receipt whose summary total is present but zero. -/
def zeroTotalReceipt : Receipt :=
  { emptyReceipt with summary := some zeroTotalSummary }

/-- Summary whose only present monetary field is a total of 500. -/
def smallTotalSummary : Summary :=
  { emptySummary with total := some 500 }

/-- Receipt whose summary total is 500 (below the 1000 floor). -/
def smallTotalReceipt : Receipt :=
  { emptyReceipt with summary := some smallTotalSummary }

/-- Scenario D item: a single 100-unit line item. -/
def scenarioDItem : Item :=
  { description := some "A", quantity := some 1, unit_price := some 100,
    total_price := some 100, tax := none }

/-- Scenario D summary: subtotal 100, taxes 10, service charge 20, total 130. -/
def scenarioDSummary : Summary :=
  { emptySummary with
    subtotal := some 100, taxes := some 10, total := some 130,
    service_charge := some 20 }

/-- Scenario D receipt: one 100-unit item, taxes 10, service charge 20,
total 130 (the with-service-charge hypothesis matches exactly). -/
def scenarioDReceipt : Receipt :=
  { emptyReceipt with
    items := some [scenarioDItem]
    summary := some scenarioDSummary }

/-- Receipt carrying a precomputed discrepancy of 5, producing a
`DISCREPANCY_EXPLANATION` issue. -/
def discrepancyReceipt : Receipt :=
  { emptyReceipt with
    summary := some { emptySummary with total := some 2000, discrepancy := some 5 } }

/-- Summary for the C7 witness: subtotal 1000, taxes 100, total 2000 with
all three nonzero. -/
def mismatchSummary : Summary :=
  { emptySummary with subtotal := some 1000, taxes := some 100, total := some 2000 }

/-- Receipt for the C7 witness. -/
def mismatchReceipt : Receipt :=
  { emptyReceipt with summary := some mismatchSummary }

/-! ## Theorems -/

/-! ### Digit-string and scanner lemmas -/

theorem isDig_digCh (n : Nat) : isDig (digCh n) = true := by
  unfold digCh
  split <;> decide

theorem mem_natCharsAux_isDig (fuel : Nat) :
    ∀ n : Nat, ∀ c ∈ natCharsAux fuel n, isDig c = true := by
  induction fuel with
  | zero => intro n c hc; simp [natCharsAux] at hc
  | succ fuel ih =>
    intro n c hc
    unfold natCharsAux at hc
    split at hc
    · simp only [List.mem_singleton] at hc
      subst hc
      exact isDig_digCh n
    · rw [List.mem_append] at hc
      rcases hc with hc | hc
      · exact ih _ c hc
      · simp only [List.mem_singleton] at hc
        subst hc
        exact isDig_digCh _

theorem mem_natChars_isDig (n : Nat) : ∀ c ∈ natChars n, isDig c = true :=
  mem_natCharsAux_isDig (n + 1) n

theorem natChars_ne_nil (n : Nat) : natChars n ≠ [] := by
  unfold natChars natCharsAux
  split <;> simp

theorem mem_pad2Chars_isDig (m : Nat) : ∀ c ∈ pad2Chars m, isDig c = true := by
  intro c hc
  simp only [pad2Chars, List.mem_cons, List.mem_singleton, List.not_mem_nil, or_false] at hc
  rcases hc with rfl | rfl <;> exact isDig_digCh _

theorem scanAux_none_nil (p : List Char) (hp : ∀ c ∈ p, isDig c = false) :
    scanAux none p = [] := by
  induction p with
  | nil => rfl
  | cons c cs ih =>
    simp only [scanAux, hp c (List.mem_cons_self c cs), Bool.false_eq_true, if_false]
    exact ih fun x hx => hp x (List.mem_cons_of_mem c hx)

theorem scanAux_skip (p rest : List Char) (hp : ∀ c ∈ p, isDig c = false) :
    scanAux none (p ++ rest) = scanAux none rest := by
  induction p with
  | nil => rfl
  | cons c cs ih =>
    simp only [List.cons_append, scanAux, hp c (List.mem_cons_self c cs),
      Bool.false_eq_true, if_false]
    exact ih fun x hx => hp x (List.mem_cons_of_mem c hx)

theorem scanAux_intRun (d : List Char) (hd : ∀ c ∈ d, isDig c = true) :
    ∀ acc rest, scanAux (some (acc, none)) (d ++ rest) = scanAux (some (acc ++ d, none)) rest := by
  induction d with
  | nil => intro acc rest; simp
  | cons c cs ih =>
    intro acc rest
    simp only [List.cons_append, scanAux, hd c (List.mem_cons_self c cs), if_true,
      List.append_eq]
    rw [ih (fun x hx => hd x (List.mem_cons_of_mem c hx)) (acc ++ [c]) rest]
    simp [List.append_assoc]

theorem scanAux_fracRun (d : List Char) (hd : ∀ c ∈ d, isDig c = true) :
    ∀ acc fr rest,
      scanAux (some (acc, some fr)) (d ++ rest) = scanAux (some (acc, some (fr ++ d))) rest := by
  induction d with
  | nil => intro acc fr rest; simp
  | cons c cs ih =>
    intro acc fr rest
    simp only [List.cons_append, scanAux, hd c (List.mem_cons_self c cs), if_true,
      List.append_eq]
    rw [ih (fun x hx => hd x (List.mem_cons_of_mem c hx)) acc (fr ++ [c]) rest]
    simp [List.append_assoc]

theorem scanAux_token (d1 d2 rest : List Char)
    (h1 : ∀ c ∈ d1, isDig c = true) (hn1 : d1 ≠ [])
    (h2 : ∀ c ∈ d2, isDig c = true) (hn2 : d2 ≠ [])
    (hrest : ∀ c, rest.head? = some c → isDig c = false) :
    scanAux none (d1 ++ ('.' :: (d2 ++ rest))) = (d1 ++ '.' :: d2) :: scanAux none rest := by
  rcases d1 with _ | ⟨c, cs⟩
  · exact absurd rfl hn1
  rw [List.cons_append]
  simp only [scanAux, h1 c (List.mem_cons_self c cs), if_true, List.append_eq]
  rw [scanAux_intRun cs (fun x hx => h1 x (List.mem_cons_of_mem c hx)) [c]
    ('.' :: (d2 ++ rest)), List.singleton_append]
  simp only [scanAux, show isDig '.' = false from by decide, Bool.false_eq_true, if_false,
    if_pos rfl, List.append_eq]
  rw [scanAux_fracRun d2 h2 (c :: cs) [] rest]
  simp only [List.nil_append]
  rcases d2 with _ | ⟨f, fs⟩
  · exact absurd rfl hn2
  rcases rest with _ | ⟨x, xs⟩
  · simp [scanAux]
  · have hx : isDig x = false := hrest x rfl
    simp [scanAux, hx]

theorem scanAux_single (pre d1 d2 post : List Char)
    (hpre : ∀ c ∈ pre, isDig c = false) (hpost : ∀ c ∈ post, isDig c = false)
    (h1 : ∀ c ∈ d1, isDig c = true) (hn1 : d1 ≠ [])
    (h2 : ∀ c ∈ d2, isDig c = true) (hn2 : d2 ≠ []) :
    scanAux none (pre ++ (d1 ++ ('.' :: (d2 ++ post)))) = [d1 ++ '.' :: d2] := by
  rw [scanAux_skip pre _ hpre,
    scanAux_token d1 d2 post h1 hn1 h2 hn2 ?_, scanAux_none_nil post hpost]
  intro c hc
  apply hpost c
  rcases post with _ | ⟨y, ys⟩
  · simp at hc
  · simp only [List.head?_cons, Option.some.injEq] at hc
    simp [← hc]

theorem scanNums_discrepancyMessage (d : ℚ) :
    scanNums (discrepancyMessage d) =
      [natChars ((roundHalfAway (d * 100)).natAbs / 100) ++
        '.' :: pad2Chars ((roundHalfAway (d * 100)).natAbs % 100)] := by
  have hpre : ∀ c ∈ "Significant discrepancy (".data, isDig c = false := by decide
  have hpost : ∀ c ∈ ") detected in receipt totals".data, isDig c = false := by decide
  have hpre' : ∀ c ∈ "Significant discrepancy (".data ++ ['-'], isDig c = false := by decide
  unfold scanNums discrepancyMessage toFixed2 toFixed2Chars
  simp only [String.data_append]
  by_cases hn : roundHalfAway (d * 100) < 0
  · simp only [if_pos hn]
    simpa [List.append_assoc] using
      scanAux_single ("Significant discrepancy (".data ++ ['-'])
        (natChars ((roundHalfAway (d * 100)).natAbs / 100))
        (pad2Chars ((roundHalfAway (d * 100)).natAbs % 100))
        ") detected in receipt totals".data hpre' hpost
        (mem_natChars_isDig _) (natChars_ne_nil _)
        (mem_pad2Chars_isDig _) (by simp [pad2Chars])
  · simp only [if_neg hn]
    simpa [List.append_assoc] using
      scanAux_single "Significant discrepancy (".data
        (natChars ((roundHalfAway (d * 100)).natAbs / 100))
        (pad2Chars ((roundHalfAway (d * 100)).natAbs % 100))
        ") detected in receipt totals".data hpre hpost
        (mem_natChars_isDig _) (natChars_ne_nil _)
        (mem_pad2Chars_isDig _) (by simp [pad2Chars])

theorem extract_discrepancyMessage_eq_none (d : ℚ) :
    extractDiscrepancyPercentage (discrepancyMessage d) = none := by
  unfold extractDiscrepancyPercentage
  rw [scanNums_discrepancyMessage]
  rfl

/-! ### Issue types emitted by each rule check -/

theorem validateTimestamp_types (env : JsDateEnv) (r : Receipt) :
    ∀ x ∈ validateTimestamp env r,
      x.type = IssueType.TIMESTAMP_FUTURE ∨ x.type = IssueType.TIMESTAMP_TOO_OLD := by
  intro x hx
  unfold validateTimestamp at hx
  repeat' split at hx
  all_goals simp_all
  all_goals (rcases hx with rfl | rfl <;> simp)

theorem validateTaxCalculations_types (r : Receipt) :
    ∀ x ∈ validateTaxCalculations r, x.type = IssueType.UNUSUAL_TAX_RATE := by
  intro x hx
  unfold validateTaxCalculations at hx
  repeat' split at hx
  all_goals simp_all

theorem validateTotals_types (r : Receipt) :
    ∀ x ∈ validateTotals r, x.type = IssueType.ITEMS_SUBTOTAL_MISMATCH := by
  intro x hx
  unfold validateTotals at hx
  repeat' split at hx
  all_goals simp_all

theorem validateCurrencyConsistency_types (r : Receipt) :
    ∀ x ∈ validateCurrencyConsistency r, x.type = IssueType.INVALID_CURRENCY_CODE := by
  intro x hx
  unfold validateCurrencyConsistency at hx
  repeat' split at hx
  all_goals simp_all

theorem validateReceiptNumberFormat_types (r : Receipt) :
    ∀ x ∈ validateReceiptNumberFormat r, x.type = IssueType.SUSPICIOUS_RECEIPT_NUMBER := by
  intro x hx
  unfold validateReceiptNumberFormat at hx
  repeat' split at hx
  all_goals simp_all

theorem validateItemsQuantityPrice_types (r : Receipt) :
    ∀ x ∈ validateItemsQuantityPrice r, x.type = IssueType.ITEM_PRICE_CALCULATION := by
  intro x hx
  unfold validateItemsQuantityPrice at hx
  repeat' split at hx
  all_goals try simp_all
  obtain ⟨a, b, -, -, -, rfl⟩ := hx
  rfl

theorem validatePaymentMethodsTotal_types (r : Receipt) :
    ∀ x ∈ validatePaymentMethodsTotal r, x.type = IssueType.PAYMENT_METHODS_MISMATCH := by
  intro x hx
  unfold validatePaymentMethodsTotal at hx
  repeat' split at hx
  all_goals simp_all

theorem validateStoreInfo_types (r : Receipt) :
    ∀ x ∈ validateStoreInfo r,
      x.type = IssueType.EMPTY_STORE_NAME ∨ x.type = IssueType.EMPTY_STORE_ADDRESS := by
  intro x hx
  unfold validateStoreInfo at hx
  repeat' split at hx
  all_goals simp_all
  all_goals (rcases hx with rfl | rfl <;> simp)

theorem validateDuplicateItems_types (r : Receipt) :
    ∀ x ∈ validateDuplicateItems r, x.type = IssueType.DUPLICATE_ITEMS := by
  intro x hx
  unfold validateDuplicateItems at hx
  repeat' split at hx
  all_goals try simp_all
  obtain ⟨a, b, c, -, -, rfl⟩ := hx
  rfl

theorem validateTimeFormat_types (r : Receipt) :
    ∀ x ∈ validateTimeFormat r, x.type = IssueType.TIMESTAMP_FORMAT := by
  intro x hx
  unfold validateTimeFormat at hx
  repeat' split at hx
  all_goals simp_all

theorem validateSummaryCalculations_types (r : Receipt) :
    ∀ x ∈ validateSummaryCalculations r, x.type = IssueType.SUMMARY_CALCULATION_ERROR := by
  intro x hx
  unfold validateSummaryCalculations at hx
  repeat' split at hx
  all_goals simp_all

theorem validateNegativeAmounts_types (r : Receipt) :
    ∀ x ∈ validateNegativeAmounts r, x.type = IssueType.NEGATIVE_AMOUNT := by
  intro x hx
  unfold validateNegativeAmounts at hx
  rw [List.mem_append] at hx
  rcases hx with hx | hx
  · rcases hri : r.items with _ | items
    · rw [hri] at hx
      simp at hx
    · rw [hri] at hx
      simp only [List.mem_flatMap] at hx
      obtain ⟨p, -, hx⟩ := hx
      split at hx
      · simp only [List.mem_singleton] at hx
        subst hx
        rfl
      · simp at hx
  · rcases hrs : r.summary with _ | s
    · rw [hrs] at hx
      simp at hx
    · rw [hrs] at hx
      rw [List.mem_append] at hx
      rcases hx with hx | hx <;> (split at hx <;> simp_all)

theorem validateCardNumbers_types (r : Receipt) :
    ∀ x ∈ validateCardNumbers r, x.type = IssueType.CARD_NUMBER_FORMAT := by
  intro x hx
  unfold validateCardNumbers at hx
  repeat' split at hx
  all_goals try simp_all
  obtain ⟨a, b, -, hx⟩ := hx
  rcases hm : b.method with _ | meth
  · rw [hm] at hx
    simp at hx
  · rw [hm] at hx
    repeat' split at hx
    all_goals simp_all

theorem mem_validateDiscrepancy (r : Receipt) :
    ∀ x ∈ validateDiscrepancy r, ∃ d : ℚ,
      x = ⟨IssueType.DISCREPANCY_EXPLANATION, discrepancyMessage d, Severity.warning⟩ := by
  intro x hx
  unfold validateDiscrepancy at hx
  repeat' split at hx
  all_goals simp_all

theorem validateDiscrepancy_types (r : Receipt) :
    ∀ x ∈ validateDiscrepancy r, x.type = IssueType.DISCREPANCY_EXPLANATION := by
  intro x hx
  obtain ⟨d, rfl⟩ := mem_validateDiscrepancy r x hx
  rfl

theorem validateServiceCharge_types (r : Receipt) :
    ∀ x ∈ validateServiceCharge r,
      x.type = IssueType.SERVICE_CHARGE_CALCULATION ∨
        x.type = IssueType.SUMMARY_CALCULATION_ERROR := by
  intro x hx
  unfold validateServiceCharge at hx
  split at hx
  · simp at hx
  · split at hx
    · simp at hx
    · rw [List.mem_append] at hx
      rcases hx with hx | hx
      · split at hx
        · rw [List.mem_append] at hx
          rcases hx with hx | hx <;> (split at hx <;> simp_all)
        · simp at hx
      · split at hx
        · repeat' split at hx
          all_goals simp_all
        · simp at hx

theorem validateTotalAmount_types (r : Receipt) :
    ∀ x ∈ validateTotalAmount r, x.type = IssueType.TOTAL_TOO_SMALL := by
  intro x hx
  unfold validateTotalAmount at hx
  repeat' split at hx
  all_goals simp_all

/-! ### Weight and rounding lemmas -/

theorem parseTok_nonneg (l : List Char) : 0 ≤ parseTok l := by
  unfold parseTok
  split <;> positivity

theorem extract_nonneg (m : String) (p : ℚ)
    (h : extractDiscrepancyPercentage m = some p) : 0 ≤ p := by
  have hall : ∀ x ∈ (scanNums m).map parseTok, (0:ℚ) ≤ x := by
    intro x hx
    rw [List.mem_map] at hx
    obtain ⟨t, -, rfl⟩ := hx
    exact parseTok_nonneg t
  unfold extractDiscrepancyPercentage at h
  rcases hL : (scanNums m).map parseTok with _ | ⟨a, _ | ⟨b, L⟩⟩ <;> rw [hL] at h
  · simp at h
  · simp at h
  · have ha : (0:ℚ) ≤ a := hall a (by rw [hL]; simp)
    dsimp only at h
    split at h
    · simp at h
    · rw [Option.some.injEq] at h
      subst h
      rename_i hm
      have hmax : 0 < max a b :=
        lt_of_le_of_ne (le_trans ha (le_max_left a b)) (Ne.symm hm)
      positivity

theorem issueWeight_nonneg (i : Issue) : 0 ≤ issueWeight i := by
  rcases i with ⟨t, m, sv⟩
  unfold issueWeight
  dsimp only
  have hb : (0:ℚ) ≤
      match sv with
      | .fatal => (6:ℚ) / 10
      | .error => 3 / 10
      | .warning => 1 / 10
      | .info => 3 / 100 := by
    cases sv <;> norm_num
  split
  · split
    · rename_i p hp
      have hp' : (0:ℚ) ≤ p := extract_nonneg m p hp
      exact mul_nonneg hb (le_min (by norm_num) (by positivity))
    · exact hb
  · exact hb

theorem claimIssueWeight_eq (i : Issue) : claimIssueWeight i = issueWeight i := by
  rcases i with ⟨t, m, sv⟩
  unfold claimIssueWeight issueWeight extractDiscrepancyPercentage
  dsimp only
  by_cases hnum : isNumericalDiscrepancyIssue t
  · simp only [hnum, if_true]
    rcases hL : (scanNums m).map parseTok with _ | ⟨a, _ | ⟨b, L⟩⟩
    · rfl
    · rfl
    · by_cases hm : max a b = 0 <;> simp [hm]
  · simp [hnum]

theorem round2_nonneg (q : ℚ) (h : 0 ≤ q) : 0 ≤ round2 q := by
  unfold round2 roundHalfAway
  rw [if_neg (by push_neg; positivity)]
  have h1 : (0:ℤ) ≤ ⌊q * 100 + 1 / 2⌋ := Int.floor_nonneg.mpr (by positivity)
  have h2 : (0:ℚ) ≤ (⌊q * 100 + 1 / 2⌋ : ℚ) := by exact_mod_cast h1
  positivity

theorem round2_le_one (q : ℚ) (h0 : 0 ≤ q) (h1 : q ≤ 1) : round2 q ≤ 1 := by
  unfold round2 roundHalfAway
  rw [if_neg (by push_neg; positivity)]
  have h2 : ⌊q * 100 + 1 / 2⌋ < 101 := by
    rw [Int.floor_lt]
    push_cast
    linarith
  have h3 : ⌊q * 100 + 1 / 2⌋ ≤ 100 := by omega
  rw [div_le_one (by norm_num)]
  exact_mod_cast h3

/-- C5: the confidence score equals `max 0 (1 − Σ weights)` rounded to two
decimals, with the per-issue weight exactly as the claim words it (severity
base weight, percentage scaling for numerical-discrepancy types with at least
two extracted numbers and a nonzero base), and the score always lies in
`[0, 1]`. -/
theorem C5_confidence_formula (env : JsDateEnv) (r : Receipt) :
    (validate env r).confidence_score =
      round2 (max 0 (1 - ((validate env r).issues.map claimIssueWeight).sum)) ∧
    0 ≤ (validate env r).confidence_score ∧ (validate env r).confidence_score ≤ 1 := by
  have hred : (0:ℚ) ≤ ((validateIssues env r).map issueWeight).sum := by
    apply List.sum_nonneg
    intro x hx
    rw [List.mem_map] at hx
    obtain ⟨i, -, rfl⟩ := hx
    exact issueWeight_nonneg i
  have hcs : (validate env r).confidence_score =
      round2 (max 0 (1 - ((validateIssues env r).map issueWeight).sum)) := rfl
  refine ⟨?_, ?_, ?_⟩
  · rw [hcs]
    have : (validate env r).issues.map claimIssueWeight =
        (validateIssues env r).map issueWeight := by
      simp [validate, claimIssueWeight_eq]
    rw [this]
  · rw [hcs]
    exact round2_nonneg _ (le_max_left 0 _)
  · rw [hcs]
    exact round2_le_one _ (le_max_left 0 _) (max_le (by norm_num) (by linarith))

/-- C1: the validation result of `ReceiptValidator.validate` has `valid = true`
iff its issue list contains no issue with severity `error`; issues of severity
`fatal`, `warning`, or `info` never make `valid` false. -/
theorem C1_valid_iff_no_error_issue (env : JsDateEnv) (r : Receipt) :
    (validate env r).valid = true ↔
      ∀ i ∈ (validate env r).issues, i.severity ≠ Severity.error := by
  simp [validate, List.length_eq_zero, List.filter_eq_nil_iff]

/-- C3: for a receipt passing the calculator's guard, the returned summary has
`service_charge_included = true` iff the absolute rounded discrepancy of the
with-service-charge hypothesis is strictly smaller than that of the without
hypothesis (a tie yields `false`), and `discrepancy` is the winning value. -/
theorem C3_discrepancy_inference (r : Receipt) (items : List Item) (s : Summary)
    (t : ℚ) (h1 : r.items = some items) (h2 : r.summary = some s)
    (h3 : s.total = some t) :
    ∃ s', (calculateDiscrepancy r).summary = some s' ∧
      (s'.service_charge_included = some true ↔
        |round2 (t - (itemsTotalSum items + s.taxes.getD 0 + s.service_charge.getD 0 +
            otherChargesSum s - s.discounts.getD 0))| <
        |round2 (t - (itemsTotalSum items + s.taxes.getD 0 +
            otherChargesSum s - s.discounts.getD 0))|) ∧
      s'.discrepancy = some
        (if |round2 (t - (itemsTotalSum items + s.taxes.getD 0 + s.service_charge.getD 0 +
              otherChargesSum s - s.discounts.getD 0))| <
            |round2 (t - (itemsTotalSum items + s.taxes.getD 0 +
              otherChargesSum s - s.discounts.getD 0))| then
          round2 (t - (itemsTotalSum items + s.taxes.getD 0 + s.service_charge.getD 0 +
            otherChargesSum s - s.discounts.getD 0))
        else
          round2 (t - (itemsTotalSum items + s.taxes.getD 0 +
            otherChargesSum s - s.discounts.getD 0))) := by
  simp only [calculateDiscrepancy, h1, h2, h3]
  refine ⟨_, rfl, ?_, ?_⟩ <;>
    by_cases hc :
      |round2 (t - (itemsTotalSum items + s.taxes.getD 0 + s.service_charge.getD 0 +
          otherChargesSum s - s.discounts.getD 0))| <
      |round2 (t - (itemsTotalSum items + s.taxes.getD 0 +
          otherChargesSum s - s.discounts.getD 0))| <;>
    simp [hc]

/-- C3 witness at the spec's Scenario D receipt: the with-service-charge
hypothesis wins, so the flag is set and the discrepancy is 0. -/
theorem C3_discrepancy_inference_witness :
    ∃ s', (calculateDiscrepancy scenarioDReceipt).summary = some s' ∧
      s'.service_charge_included = some true ∧ s'.discrepancy = some 0 := by
  obtain ⟨s', h1, h2, h3⟩ := C3_discrepancy_inference scenarioDReceipt
    [scenarioDItem] scenarioDSummary 130 rfl rfl rfl
  refine ⟨s', h1, h2.mpr (by with_unfolding_all decide), ?_⟩
  rw [h3]
  with_unfolding_all decide

/-- C4: the calculator never changes anything but `summary.discrepancy` and
`summary.service_charge_included`, and when `items` or `summary` is absent or
`summary.total` is not numeric it returns its input unchanged. -/
theorem C4_frame_and_guard (r : Receipt) :
    ((r.items = none ∨ r.summary = none ∨ r.summary.bind Summary.total = none) →
      calculateDiscrepancy r = r) ∧
    (∃ od of', calculateDiscrepancy r = updateDiscFields r od of') ∧
    (calculateDiscrepancy r).is_receipt = r.is_receipt ∧
    (calculateDiscrepancy r).header = r.header ∧
    (calculateDiscrepancy r).category = r.category ∧
    (calculateDiscrepancy r).items = r.items ∧
    (calculateDiscrepancy r).payment = r.payment ∧
    (calculateDiscrepancy r).notes = r.notes := by
  have frame : ∃ od of', calculateDiscrepancy r = updateDiscFields r od of' := by
    obtain ⟨a, hd, cat, ri, pay, rs, nts⟩ := r
    rcases ri with _ | items
    · rcases rs with _ | s
      · exact ⟨none, none, rfl⟩
      · obtain ⟨ti, de, sub, tax, tot, dis, sc, oc, dcr, sci⟩ := s
        exact ⟨dcr, sci, rfl⟩
    · rcases rs with _ | s
      · exact ⟨none, none, rfl⟩
      · obtain ⟨ti, de, sub, tax, tot, dis, sc, oc, dcr, sci⟩ := s
        rcases tot with _ | t
        · exact ⟨dcr, sci, rfl⟩
        · exact ⟨_, _, rfl⟩
  refine ⟨?_, frame, ?_, ?_, ?_, ?_, ?_, ?_⟩
  · intro h
    obtain ⟨a, hd, cat, ri, pay, rs, nts⟩ := r
    rcases ri with _ | items
    · rfl
    rcases rs with _ | s
    · rfl
    obtain ⟨ti, de, sub, tax, tot, dis, sc, oc, dcr, sci⟩ := s
    rcases tot with _ | t
    · rfl
    · simp at h
  all_goals
    obtain ⟨od, of', h⟩ := frame
    rw [h]
    rfl

/-- C4 witness: the guard clause at the all-absent receipt. -/
theorem C4_frame_and_guard_witness : calculateDiscrepancy emptyReceipt = emptyReceipt :=
  (C4_frame_and_guard emptyReceipt).1 (Or.inl rfl)

/-- C9: the calculator is idempotent — applying it to its own output changes
nothing, since the fields it reads are not among the two it writes. -/
theorem C9_calculateDiscrepancy_idempotent (r : Receipt) :
    calculateDiscrepancy (calculateDiscrepancy r) = calculateDiscrepancy r := by
  obtain ⟨a, hd, cat, ri, pay, rs, nts⟩ := r
  rcases ri with _ | items
  · rfl
  rcases rs with _ | s
  · rfl
  obtain ⟨ti, de, sub, tax, tot, dis, sc, oc, dcr, sci⟩ := s
  rcases tot with _ | t
  · rfl
  · rfl

/-- C10: every `DISCREPANCY_EXPLANATION` issue contributes its full base
warning weight 0.1 — the percentage scaling never applies to it, because its
message contains a single decimal number, so the two-number extraction
returns `none` even though the type is in the numerical-discrepancy subset. -/
theorem C10_discrepancy_weight_unscaled (env : JsDateEnv) (r : Receipt) :
    ∀ i ∈ (validate env r).issues, i.type = IssueType.DISCREPANCY_EXPLANATION →
      extractDiscrepancyPercentage i.message = none ∧ issueWeight i = 1 / 10 := by
  intro i hi htype
  have step : ∀ {A : IssueType}, i.type = A → A = IssueType.DISCREPANCY_EXPLANATION :=
    fun hA => hA.symm.trans htype
  have hi' : i ∈ validateIssues env r := hi
  unfold validateIssues at hi'
  simp only [List.mem_append] at hi'
  rcases hi' with ((((((((((((((h | h) | h) | h) | h) | h) | h) | h) | h) | h) | h) |
    h) | h) | h) | h) | h
  · rcases validateTimestamp_types env r i h with he | he <;>
      exact absurd (step he) (by decide)
  · exact absurd (step (validateTaxCalculations_types r i h)) (by decide)
  · exact absurd (step (validateTotals_types r i h)) (by decide)
  · exact absurd (step (validateCurrencyConsistency_types r i h)) (by decide)
  · exact absurd (step (validateReceiptNumberFormat_types r i h)) (by decide)
  · exact absurd (step (validateItemsQuantityPrice_types r i h)) (by decide)
  · exact absurd (step (validatePaymentMethodsTotal_types r i h)) (by decide)
  · rcases validateStoreInfo_types r i h with he | he <;>
      exact absurd (step he) (by decide)
  · exact absurd (step (validateDuplicateItems_types r i h)) (by decide)
  · exact absurd (step (validateTimeFormat_types r i h)) (by decide)
  · exact absurd (step (validateSummaryCalculations_types r i h)) (by decide)
  · exact absurd (step (validateNegativeAmounts_types r i h)) (by decide)
  · exact absurd (step (validateCardNumbers_types r i h)) (by decide)
  · obtain ⟨d, rfl⟩ := mem_validateDiscrepancy r i h
    exact ⟨extract_discrepancyMessage_eq_none d, by
      simp [issueWeight, isNumericalDiscrepancyIssue, extract_discrepancyMessage_eq_none]⟩
  · rcases validateServiceCharge_types r i h with he | he <;>
      exact absurd (step he) (by decide)
  · exact absurd (step (validateTotalAmount_types r i h)) (by decide)

/-- C10 witness: the receipt with stored discrepancy 5 produces the issue
with message `Significant discrepancy (5.00) detected in receipt totals`,
whose extraction fails and whose weight is the full 0.1. -/
theorem C10_discrepancy_weight_unscaled_witness :
    extractDiscrepancyPercentage (discrepancyMessage 5) = none ∧
      issueWeight ⟨IssueType.DISCREPANCY_EXPLANATION, discrepancyMessage 5,
        Severity.warning⟩ = 1 / 10 :=
  C10_discrepancy_weight_unscaled envParseFail discrepancyReceipt
    ⟨IssueType.DISCREPANCY_EXPLANATION, discrepancyMessage 5, Severity.warning⟩
    (by with_unfolding_all decide) rfl

/-- C6 (amended): issues appear in the source's call order, in which the
timestamp-format check runs tenth — after tax-rate plausibility (second) and
duplicate items (ninth).  Hence every `UNUSUAL_TAX_RATE` or `DUPLICATE_ITEMS`
issue precedes every `TIMESTAMP_FORMAT` issue in the list, not the other way
round as the spec's catalog order suggests. -/
theorem C6_rule_order (env : JsDateEnv) (r : Receipt) (i j : ℕ) (x y : Issue)
    (hxe : (validate env r).issues[i]? = some x)
    (hxt : x.type = IssueType.UNUSUAL_TAX_RATE ∨ x.type = IssueType.DUPLICATE_ITEMS)
    (hye : (validate env r).issues[j]? = some y)
    (hyt : y.type = IssueType.TIMESTAMP_FORMAT) : i < j := by
  have hsplit : (validate env r).issues =
      (validateTimestamp env r ++ validateTaxCalculations r ++ validateTotals r ++
        validateCurrencyConsistency r ++ validateReceiptNumberFormat r ++
        validateItemsQuantityPrice r ++ validatePaymentMethodsTotal r ++
        validateStoreInfo r ++ validateDuplicateItems r) ++
      (validateTimeFormat r ++ validateSummaryCalculations r ++
        validateNegativeAmounts r ++ validateCardNumbers r ++ validateDiscrepancy r ++
        validateServiceCharge r ++ validateTotalAmount r) := by
    show validateIssues env r = _
    unfold validateIssues
    simp [List.append_assoc]
  have hPnoTF : ∀ z ∈ validateTimestamp env r ++ validateTaxCalculations r ++
      validateTotals r ++ validateCurrencyConsistency r ++ validateReceiptNumberFormat r ++
      validateItemsQuantityPrice r ++ validatePaymentMethodsTotal r ++
      validateStoreInfo r ++ validateDuplicateItems r,
      z.type ≠ IssueType.TIMESTAMP_FORMAT := by
    intro z hz
    have ne : ∀ {A B : IssueType}, z.type = A → z.type = B → A = B :=
      fun h1 h2 => h1.symm.trans h2
    simp only [List.mem_append] at hz
    rcases hz with ((((((((h | h) | h) | h) | h) | h) | h) | h) | h)
    · rcases validateTimestamp_types env r z h with he | he <;>
        (intro heq; exact absurd (ne he heq) (by decide))
    · intro heq; exact absurd (ne (validateTaxCalculations_types r z h) heq) (by decide)
    · intro heq; exact absurd (ne (validateTotals_types r z h) heq) (by decide)
    · intro heq; exact absurd (ne (validateCurrencyConsistency_types r z h) heq) (by decide)
    · intro heq; exact absurd (ne (validateReceiptNumberFormat_types r z h) heq) (by decide)
    · intro heq; exact absurd (ne (validateItemsQuantityPrice_types r z h) heq) (by decide)
    · intro heq; exact absurd (ne (validatePaymentMethodsTotal_types r z h) heq) (by decide)
    · rcases validateStoreInfo_types r z h with he | he <;>
        (intro heq; exact absurd (ne he heq) (by decide))
    · intro heq; exact absurd (ne (validateDuplicateItems_types r z h) heq) (by decide)
  have hRnoEarly : ∀ z ∈ validateTimeFormat r ++ validateSummaryCalculations r ++
      validateNegativeAmounts r ++ validateCardNumbers r ++ validateDiscrepancy r ++
      validateServiceCharge r ++ validateTotalAmount r,
      z.type ≠ IssueType.UNUSUAL_TAX_RATE ∧ z.type ≠ IssueType.DUPLICATE_ITEMS := by
    intro z hz
    have ne : ∀ {A B : IssueType}, z.type = A → z.type = B → A = B :=
      fun h1 h2 => h1.symm.trans h2
    simp only [List.mem_append] at hz
    rcases hz with ((((((h | h) | h) | h) | h) | h) | h)
    · exact ⟨fun heq => absurd (ne (validateTimeFormat_types r z h) heq) (by decide),
        fun heq => absurd (ne (validateTimeFormat_types r z h) heq) (by decide)⟩
    · exact ⟨fun heq => absurd (ne (validateSummaryCalculations_types r z h) heq) (by decide),
        fun heq => absurd (ne (validateSummaryCalculations_types r z h) heq) (by decide)⟩
    · exact ⟨fun heq => absurd (ne (validateNegativeAmounts_types r z h) heq) (by decide),
        fun heq => absurd (ne (validateNegativeAmounts_types r z h) heq) (by decide)⟩
    · exact ⟨fun heq => absurd (ne (validateCardNumbers_types r z h) heq) (by decide),
        fun heq => absurd (ne (validateCardNumbers_types r z h) heq) (by decide)⟩
    · exact ⟨fun heq => absurd (ne (validateDiscrepancy_types r z h) heq) (by decide),
        fun heq => absurd (ne (validateDiscrepancy_types r z h) heq) (by decide)⟩
    · rcases validateServiceCharge_types r z h with he | he <;>
        exact ⟨fun heq => absurd (ne he heq) (by decide),
          fun heq => absurd (ne he heq) (by decide)⟩
    · exact ⟨fun heq => absurd (ne (validateTotalAmount_types r z h) heq) (by decide),
        fun heq => absurd (ne (validateTotalAmount_types r z h) heq) (by decide)⟩
  rw [hsplit] at hxe hye
  have hiP : i < (validateTimestamp env r ++ validateTaxCalculations r ++ validateTotals r ++
      validateCurrencyConsistency r ++ validateReceiptNumberFormat r ++
      validateItemsQuantityPrice r ++ validatePaymentMethodsTotal r ++
      validateStoreInfo r ++ validateDuplicateItems r).length := by
    by_contra hc
    push_neg at hc
    rw [List.getElem?_append_right hc] at hxe
    have hmem := List.getElem?_mem hxe
    rcases hxt with ht | ht
    · exact (hRnoEarly x hmem).1 ht
    · exact (hRnoEarly x hmem).2 ht
  have hjP : (validateTimestamp env r ++ validateTaxCalculations r ++ validateTotals r ++
      validateCurrencyConsistency r ++ validateReceiptNumberFormat r ++
      validateItemsQuantityPrice r ++ validatePaymentMethodsTotal r ++
      validateStoreInfo r ++ validateDuplicateItems r).length ≤ j := by
    by_contra hc
    push_neg at hc
    rw [List.getElem?_append_left hc] at hye
    exact hPnoTF y (List.getElem?_mem hye) hyt
  omega

/-- C6 counterexample: a receipt producing both an `UNUSUAL_TAX_RATE` and a
`TIMESTAMP_FORMAT` issue yields them in that order — the `TIMESTAMP_FORMAT`
issue (position 1) does not precede the `UNUSUAL_TAX_RATE` issue (position
0), refuting the claimed spec catalog order. -/
theorem C6_rule_order_counterexample :
    (validate envParseOk orderReceipt).issues.map Issue.type =
      [IssueType.UNUSUAL_TAX_RATE, IssueType.TIMESTAMP_FORMAT] ∧
    ¬ (∀ i j : Fin (validate envParseOk orderReceipt).issues.length,
        ((validate envParseOk orderReceipt).issues.get i).type = IssueType.TIMESTAMP_FORMAT →
        ((validate envParseOk orderReceipt).issues.get j).type = IssueType.UNUSUAL_TAX_RATE →
        (i : ℕ) < (j : ℕ)) := by
  constructor
  · with_unfolding_all decide
  · intro hall
    have := hall ⟨1, by with_unfolding_all decide⟩ ⟨0, by with_unfolding_all decide⟩
      (by with_unfolding_all decide) (by with_unfolding_all decide)
    simp at this

/-- C6 witness: the amended order theorem applied at the two-issue receipt. -/
theorem C6_rule_order_witness :
    (validate envParseOk orderReceipt).issues[0]? =
      some ⟨IssueType.UNUSUAL_TAX_RATE, "Unusual tax rate detected: 3%", Severity.info⟩ ∧
    (validate envParseOk orderReceipt).issues[1]? =
      some ⟨IssueType.TIMESTAMP_FORMAT,
        "Timestamp format does not follow ISO 8601 / RFC3339 standard", Severity.warning⟩ ∧
    (0 : ℕ) < 1 := by
  refine ⟨by with_unfolding_all decide, by with_unfolding_all decide, ?_⟩
  exact C6_rule_order envParseOk orderReceipt 0 1
    ⟨IssueType.UNUSUAL_TAX_RATE, "Unusual tax rate detected: 3%", Severity.info⟩
    ⟨IssueType.TIMESTAMP_FORMAT,
      "Timestamp format does not follow ISO 8601 / RFC3339 standard", Severity.warning⟩
    (by with_unfolding_all decide) (Or.inl rfl)
    (by with_unfolding_all decide) rfl

theorem truthy_add_getD (o : Option ℚ) (e : ℚ) :
    (if truthyQ o = true then e + o.getD 0 else e) = e + o.getD 0 := by
  rcases o with _ | q
  · simp [truthyQ]
  · by_cases h : q = 0 <;> simp [truthyQ, h]

theorem truthy_sub_getD (o : Option ℚ) (e : ℚ) :
    (if truthyQ o = true then e - o.getD 0 else e) = e - o.getD 0 := by
  rcases o with _ | q
  · simp [truthyQ]
  · by_cases h : q = 0 <;> simp [truthyQ, h]

/-- C7 (amended): the summary-arithmetic rule runs only when subtotal, taxes
and total are all present AND nonzero (JS truthiness — a zero value also
skips the rule), and then emits `SUMMARY_CALCULATION_ERROR` (warning) iff
`|subtotal + taxes + (service_charge or 0) − (discounts or 0) − total| >
0.01`. -/
theorem C7_summary_arithmetic (r : Receipt) (s : Summary) (hs : r.summary = some s) :
    ((truthyQ s.subtotal = true ∧ truthyQ s.taxes = true ∧ truthyQ s.total = true) →
      ((∃ i ∈ validateSummaryCalculations r,
          i.type = IssueType.SUMMARY_CALCULATION_ERROR ∧ i.severity = Severity.warning) ↔
        |s.subtotal.getD 0 + s.taxes.getD 0 + s.service_charge.getD 0 -
          s.discounts.getD 0 - s.total.getD 0| > 1 / 100)) ∧
    ((truthyQ s.subtotal = false ∨ truthyQ s.taxes = false ∨ truthyQ s.total = false) →
      validateSummaryCalculations r = []) := by
  constructor
  · rintro ⟨h1, h2, h3⟩
    unfold validateSummaryCalculations
    rw [hs]
    dsimp only
    rw [if_neg (by simp [h1, h2, h3])]
    rw [truthy_add_getD, truthy_sub_getD]
    by_cases hc : |s.subtotal.getD 0 + s.taxes.getD 0 + s.service_charge.getD 0 -
        s.discounts.getD 0 - s.total.getD 0| > 1 / 100
    · simp only [if_pos hc]
      simp
      rwa [gt_iff_lt, one_div] at hc
    · simp only [if_neg hc]
      simp
      push_neg at hc
      rwa [one_div] at hc
  · intro h
    unfold validateSummaryCalculations
    rw [hs]
    dsimp only
    rcases h with h | h | h <;> simp [h]

/-- C7 counterexample: subtotal 100, taxes 0, total 200 — all three present
and `|100 + 0 + 0 − 0 − 200| > 0.01`, yet the rule emits nothing because the
zero taxes value is falsy and skips the guard. -/
theorem C7_summary_arithmetic_counterexample :
    validateSummaryCalculations zeroTaxReceipt = [] ∧
    zeroTaxReceipt.summary = some zeroTaxSummary ∧
    zeroTaxSummary.subtotal = some 100 ∧ zeroTaxSummary.taxes = some 0 ∧
    zeroTaxSummary.total = some 200 ∧
    |(100 : ℚ) + 0 + 0 - 0 - 200| > 1 / 100 := by
  refine ⟨by with_unfolding_all decide, rfl, rfl, rfl, rfl, by norm_num⟩

/-- C7 witness: with subtotal 1000, taxes 100, total 2000 all nonzero, the
emission criterion is an iff with the claim's arithmetic condition. -/
theorem C7_summary_arithmetic_witness :
    (∃ i ∈ validateSummaryCalculations mismatchReceipt,
        i.type = IssueType.SUMMARY_CALCULATION_ERROR ∧ i.severity = Severity.warning) ↔
      |(1000 : ℚ) + 100 + 0 - 0 - 2000| > 1 / 100 := by
  have h := (C7_summary_arithmetic mismatchReceipt mismatchSummary rfl).1
    ⟨by with_unfolding_all decide, by with_unfolding_all decide, by with_unfolding_all decide⟩
  simpa [mismatchSummary, emptySummary] using h

theorem filter_TTS_of_no_TTS (l : List Issue)
    (h : ∀ x ∈ l, x.type ≠ IssueType.TOTAL_TOO_SMALL) :
    (l.filter fun i => i.type = IssueType.TOTAL_TOO_SMALL) = [] := by
  rw [List.filter_eq_nil_iff]
  intro a ha
  simpa using h a ha

theorem filter_TTS_validateIssues (env : JsDateEnv) (r : Receipt) :
    ((validateIssues env r).filter fun i => i.type = IssueType.TOTAL_TOO_SMALL) =
      (validateTotalAmount r).filter fun i => i.type = IssueType.TOTAL_TOO_SMALL := by
  have ne : ∀ (z : Issue) {A : IssueType}, z.type = A →
      A ≠ IssueType.TOTAL_TOO_SMALL → z.type ≠ IssueType.TOTAL_TOO_SMALL :=
    fun z => fun {A} hA hne h => hne (hA.symm.trans h)
  unfold validateIssues
  simp only [List.filter_append]
  rw [filter_TTS_of_no_TTS _ (fun x hx => by
        rcases validateTimestamp_types env r x hx with he | he <;>
          exact ne x he (by decide)),
    filter_TTS_of_no_TTS _ (fun x hx => ne x (validateTaxCalculations_types r x hx) (by decide)),
    filter_TTS_of_no_TTS _ (fun x hx => ne x (validateTotals_types r x hx) (by decide)),
    filter_TTS_of_no_TTS _ (fun x hx => ne x (validateCurrencyConsistency_types r x hx) (by decide)),
    filter_TTS_of_no_TTS _ (fun x hx => ne x (validateReceiptNumberFormat_types r x hx) (by decide)),
    filter_TTS_of_no_TTS _ (fun x hx => ne x (validateItemsQuantityPrice_types r x hx) (by decide)),
    filter_TTS_of_no_TTS _ (fun x hx => ne x (validatePaymentMethodsTotal_types r x hx) (by decide)),
    filter_TTS_of_no_TTS _ (fun x hx => by
        rcases validateStoreInfo_types r x hx with he | he <;> exact ne x he (by decide)),
    filter_TTS_of_no_TTS _ (fun x hx => ne x (validateDuplicateItems_types r x hx) (by decide)),
    filter_TTS_of_no_TTS _ (fun x hx => ne x (validateTimeFormat_types r x hx) (by decide)),
    filter_TTS_of_no_TTS _ (fun x hx => ne x (validateSummaryCalculations_types r x hx) (by decide)),
    filter_TTS_of_no_TTS _ (fun x hx => ne x (validateNegativeAmounts_types r x hx) (by decide)),
    filter_TTS_of_no_TTS _ (fun x hx => ne x (validateCardNumbers_types r x hx) (by decide)),
    filter_TTS_of_no_TTS _ (fun x hx => ne x (validateDiscrepancy_types r x hx) (by decide)),
    filter_TTS_of_no_TTS _ (fun x hx => by
        rcases validateServiceCharge_types r x hx with he | he <;> exact ne x he (by decide))]
  simp

/-- C8 (amended): for a receipt whose `summary.total` is present and nonzero
(a zero total is falsy and skips the rule), a total below 1000 yields exactly
one `TOTAL_TOO_SMALL` issue, of severity fatal and full unscaled weight 0.6,
while a total of 1000 or more yields none; and the fatal issue never affects
`valid`, which is true whenever no error-severity issue exists. -/
theorem C8_total_floor (env : JsDateEnv) (r : Receipt) (s : Summary) (t : ℚ)
    (hs : r.summary = some s) (ht : s.total = some t) (hnz : t ≠ 0) :
    (t < 1000 →
      ((validate env r).issues.filter fun i => i.type = IssueType.TOTAL_TOO_SMALL) =
        [⟨IssueType.TOTAL_TOO_SMALL,
          "Total too less than 1000, might be because of thousand scaling",
          Severity.fatal⟩] ∧
      issueWeight ⟨IssueType.TOTAL_TOO_SMALL,
        "Total too less than 1000, might be because of thousand scaling",
        Severity.fatal⟩ = 6 / 10) ∧
    (1000 ≤ t →
      ((validate env r).issues.filter fun i => i.type = IssueType.TOTAL_TOO_SMALL) = []) ∧
    (((validate env r).issues.filter fun i => i.severity = Severity.error) = [] →
      (validate env r).valid = true) := by
  have htr : truthyQ s.total = true := by
    rw [ht]
    simp [truthyQ, hnz]
  have hbase : ((validate env r).issues.filter fun i => i.type = IssueType.TOTAL_TOO_SMALL) =
      (validateTotalAmount r).filter fun i => i.type = IssueType.TOTAL_TOO_SMALL :=
    filter_TTS_validateIssues env r
  refine ⟨?_, ?_, ?_⟩
  · intro hlt
    constructor
    · rw [hbase]
      unfold validateTotalAmount
      rw [hs]
      dsimp only
      rw [if_neg (by simp [htr]), if_pos (by rw [ht]; simpa using hlt)]
      rfl
    · rfl
  · intro hge
    rw [hbase]
    unfold validateTotalAmount
    rw [hs]
    dsimp only
    rw [if_neg (by simp [htr]), if_neg (by rw [ht]; simp; linarith)]
    simp
  · intro hf
    simp only [validate] at hf ⊢
    rw [hf]
    rfl

/-- C8 counterexample: a present but zero total is below 1000, yet the
validator emits no `TOTAL_TOO_SMALL` issue at all (zero is falsy and skips
the rule). -/
theorem C8_total_floor_counterexample :
    zeroTotalReceipt.summary = some zeroTotalSummary ∧
    zeroTotalSummary.total = some 0 ∧ (0 : ℚ) < 1000 ∧
    (validate envParseFail zeroTotalReceipt).issues = [] := by
  refine ⟨rfl, rfl, by norm_num, by with_unfolding_all decide⟩

/-- C8 witness: the amended theorem at the total-500 receipt. -/
theorem C8_total_floor_witness :
    ((validate envParseFail smallTotalReceipt).issues.filter fun i =>
        i.type = IssueType.TOTAL_TOO_SMALL) =
      [⟨IssueType.TOTAL_TOO_SMALL,
        "Total too less than 1000, might be because of thousand scaling",
        Severity.fatal⟩] ∧
    issueWeight ⟨IssueType.TOTAL_TOO_SMALL,
      "Total too less than 1000, might be because of thousand scaling",
      Severity.fatal⟩ = 6 / 10 :=
  (C8_total_floor envParseFail smallTotalReceipt smallTotalSummary 500 rfl rfl
    (by norm_num)).1 (by norm_num)

/-- C2 (code evaluated at the failing input): for a receipt whose timestamp
cannot be parsed as a date, `validate` emits no `TIMESTAMP_INVALID` issue —
the JavaScript `Date` constructor never throws, the Invalid Date fails both
range comparisons, and the `catch` that would push the error-severity issue
is unreachable; only the `TIMESTAMP_FORMAT` warning appears and `valid`
remains true. -/
theorem C2_timestamp_invalid_never_emitted :
    (validate envParseFail badTimestampReceipt).issues.map Issue.type =
      [IssueType.TIMESTAMP_FORMAT] ∧
    (∀ i ∈ (validate envParseFail badTimestampReceipt).issues,
      i.type ≠ IssueType.TIMESTAMP_INVALID) ∧
    (validate envParseFail badTimestampReceipt).valid = true := by
  refine ⟨by with_unfolding_all decide, by with_unfolding_all decide,
    by with_unfolding_all decide⟩

end ReceiptParser
